import Mathlib

/-!
Shallow embedding of the pulse triage core:

* `backend/symptom_analyzer.py` — class `SymptomAnalyzer` (the Symptom Classifier);
* `backend/hospital_service.py` — class `HospitalService` (the Candidate Ranking Engine).

Modelling conventions: Python strings are `List Char` (lowercasing by
`Char.toLower`), Python floats are `ℚ`, Python dicts in insertion order are
association lists, the stable Python `list.sort` is an insertion sort that keeps
an earlier element before a later one exactly when the comparator does not
force otherwise.  The geodesic distance (the external geopy collaborator) is a
function parameter.
-/

/-- Python `needle in haystack` substring test, on lists of characters. -/
def isSubstrL (needle : List Char) : List Char → Bool
  | [] => needle.isEmpty
  | c :: cs => needle.isPrefixOf (c :: cs) || isSubstrL needle cs

/-- Python `str.split()`: split on spaces, dropping empty pieces
(`acc` holds the current word reversed). -/
def splitWordsAux : List Char → List Char → List (List Char)
  | acc, [] => if acc.isEmpty then [] else [acc.reverse]
  | acc, c :: cs =>
    if c = ' ' then
      if acc.isEmpty then splitWordsAux [] cs
      else acc.reverse :: splitWordsAux [] cs
    else splitWordsAux (c :: acc) cs

/-- Python `str.split()` (whitespace = single spaces in the keyword tables). -/
def splitWords (s : List Char) : List (List Char) := splitWordsAux [] s

/-- Python `str.lower()` (the keywords of the repository are ASCII). -/
def toLowerL (s : List Char) : List Char := s.map Char.toLower

/-- Python `int()` truncation toward zero, on a rational. -/
def pyInt (q : ℚ) : ℤ := if 0 ≤ q then ⌊q⌋ else ⌈q⌉

/-- Python `round(x, 1)` (rounding to nearest; no exact halves arise in the claims). -/
def round1 (q : ℚ) : ℚ := ((round (q * 10) : ℤ) : ℚ) / 10

/-- Python `round(x, 2)`. -/
def round2 (q : ℚ) : ℚ := ((round (q * 100) : ℤ) : ℚ) / 100

/-- Table `SymptomAnalyzer._load_medical_keywords`: ordered map category → trigger phrases. -/
def medical_keywords : List (String × List String) :=
  [ ("cardiovascular",
      ["chest pain", "heart attack", "cardiac", "palpitations", "angina",
       "shortness of breath", "irregular heartbeat", "heart pounding",
       "chest pressure", "heart racing", "cardiovascular"]),
    ("respiratory",
      ["breathing", "cough", "asthma", "pneumonia", "bronchitis",
       "wheezing", "respiratory", "lung", "breathless", "dyspnea",
       "chest congestion", "difficulty breathing"]),
    ("neurological",
      ["headache", "migraine", "seizure", "stroke", "paralysis",
       "numbness", "tingling", "dizziness", "vertigo", "confusion",
       "memory loss", "neurological", "brain", "nerve pain"]),
    ("gastrointestinal",
      ["stomach pain", "abdominal pain", "nausea", "vomiting", "diarrhea",
       "constipation", "digestive", "gastric", "intestinal", "bowel",
       "food poisoning", "indigestion", "acid reflux"]),
    ("orthopedic",
      ["bone", "fracture", "joint pain", "back pain", "spinal",
       "arthritis", "muscle pain", "sprain", "strain", "orthopedic",
       "knee pain", "shoulder pain", "hip pain"]),
    ("infectious",
      ["fever", "infection", "flu", "cold", "viral", "bacterial",
       "malaria", "dengue", "typhoid", "chills", "sweating",
       "body ache", "fatigue"]),
    ("emergency",
      ["accident", "injury", "bleeding", "trauma", "burn", "wound",
       "fall", "crash", "emergency", "severe pain", "unconscious",
       "heavy bleeding", "deep cut"]),
    ("pediatric",
      ["child", "baby", "infant", "kid", "pediatric", "newborn",
       "toddler", "childhood"]),
    ("gynecological",
      ["pregnancy", "prenatal", "delivery", "gynecological", "menstrual",
       "obstetric", "pregnant", "labor", "gynecology"]),
    ("dermatology",
      ["skin", "rash", "allergy", "itch", "dermatology", "acne",
       "eczema", "psoriasis", "skin infection", "hives"]),
    ("ophthalmology",
      ["eye", "vision", "blind", "ophthalmology", "visual", "sight",
       "eye pain", "blurred vision", "eye infection"]),
    ("ent",
      ["ear", "nose", "throat", "ent", "hearing", "sinus", "tonsil",
       "ear pain", "sore throat", "nasal", "hearing loss"]),
    ("general",
      ["general", "checkup", "consultation", "medical", "health",
       "wellness", "screening"]) ]

/-- Table `SymptomAnalyzer._load_specialty_rules`: category → hospital specialty. -/
def specialty_rules : List (String × String) :=
  [ ("cardiovascular", "Cardiology"),
    ("respiratory", "Pulmonology"),
    ("neurological", "Neurology"),
    ("gastrointestinal", "Gastroenterology"),
    ("orthopedic", "Orthopedics"),
    ("infectious", "Infectious Disease"),
    ("emergency", "Emergency Medicine"),
    ("pediatric", "Pediatrics"),
    ("gynecological", "Obstetrics & Gynecology"),
    ("dermatology", "Dermatology"),
    ("ophthalmology", "Ophthalmology"),
    ("ent", "ENT"),
    ("general", "General Medicine") ]

/-- List named critical in `SymptomAnalyzer._load_priority_rules`. -/
def priority_critical : List String :=
  ["heart attack", "stroke", "unconscious", "heavy bleeding",
   "severe bleeding", "can\x27t breathe", "chest pain", "paralysis",
   "severe burns", "head injury", "poisoning", "seizure"]

/-- List named urgent in `SymptomAnalyzer._load_priority_rules`. -/
def priority_urgent : List String :=
  ["severe pain", "high fever", "difficulty breathing", "vomiting blood",
   "severe headache", "abdominal pain", "accident", "injury",
   "deep cut", "broken bone", "very dizzy"]

/-- The per-language substitution tables in `SymptomAnalyzer._translate_symptoms`. -/
def translations : List (String × List (String × String)) :=
  [ ("hi",
      [("बुखार", "fever"), ("सिरदर्द", "headache"), ("दर्द", "pain"),
       ("पेट", "stomach"), ("खांसी", "cough"), ("सांस", "breathing"),
       ("चक्कर", "dizziness"), ("कमजोरी", "weakness"), ("उल्टी", "vomiting")]),
    ("te",
      [("జ్వరం", "fever"), ("తలనొప్పి", "headache"), ("నొప్పి", "pain"),
       ("కడుపు", "stomach"), ("దగ్గు", "cough"), ("శ్వాస", "breathing"),
       ("తలతిరగడం", "dizziness"), ("బలహీనత", "weakness"), ("వాంతులు", "vomiting")]) ]

/-- Python `str.replace(needle, repl)`: replace every non-overlapping occurrence,
left to right.  (The needles of the repository are never empty.) -/
def replaceAll (needle repl : List Char) : List Char → List Char
  | [] => []
  | c :: cs =>
    if needle ≠ [] ∧ needle.isPrefixOf (c :: cs) then
      repl ++ replaceAll needle repl ((c :: cs).drop needle.length)
    else
      c :: replaceAll needle repl cs
termination_by l => l.length
decreasing_by
  · simp only [List.length_drop, List.length_cons]
    have hn : 0 < needle.length := List.length_pos.mpr (by tauto)
    omega
  · simp

/-- Method `SymptomAnalyzer._translate_symptoms`. -/
def translate_symptoms (symptoms : List Char) (language : String) : List Char :=
  match translations.lookup language with
  | none => symptoms
  | some table =>
      table.foldl (fun acc p => replaceAll p.1.toList p.2.toList acc) symptoms

/-- The inner loop of `SymptomAnalyzer._score_categories` for one category:
`+3` for a full-phrase substring match, else `+1` when any word of the phrase
matches. -/
def catScore (symptoms : List Char) (keywords : List String) : Nat :=
  keywords.foldl
    (fun score keyword =>
      if isSubstrL keyword.toList symptoms then score + 3
      else if (splitWords keyword.toList).any (fun w => isSubstrL w symptoms) then score + 1
      else score)
    0

/-- Method `SymptomAnalyzer._score_categories`: categories with positive score,
in table order. -/
def score_categories (symptoms : List Char) : List (String × Nat) :=
  medical_keywords.filterMap (fun p =>
    let score := catScore symptoms p.2
    if 0 < score then some (p.1, score) else none)

/-- Method `SymptomAnalyzer._determine_priority`: first the critical list,
then the urgent list, else `"normal"`. -/
def determine_priority (symptoms : List Char) : String :=
  if priority_critical.any (fun keyword => isSubstrL keyword.toList symptoms) then "critical"
  else if priority_urgent.any (fun keyword => isSubstrL keyword.toList symptoms) then "urgent"
  else "normal"

/-- Python `max(items, key=lambda x: x[1])`: the first pair with maximal
second component (later pairs replace the current best only when strictly
greater). -/
def maxBySnd (best : String × Nat) : List (String × Nat) → String × Nat
  | [] => best
  | p :: ps => maxBySnd (if best.2 < p.2 then p else best) ps

/-- The dict returned by `SymptomAnalyzer.analyze`. -/
structure AnalysisResult where
  category : String
  specialty : String
  priority : String
  confidence : ℚ
  raw_scores : List (String × Nat)
deriving DecidableEq, Repr

/-- Method `SymptomAnalyzer.analyze`. -/
def analyze (symptoms : String) (language : String) : AnalysisResult :=
  let symptoms_lower := toLowerL symptoms.toList
  let symptoms_lower :=
    if language ≠ "en" then translate_symptoms symptoms_lower language else symptoms_lower
  let category_scores := score_categories symptoms_lower
  let priority := determine_priority symptoms_lower
  match category_scores with
  | [] =>
      { category := "general"
        specialty := (specialty_rules.lookup "general").getD "General Medicine"
        priority := priority
        confidence := 1 / 2
        raw_scores := [] }
  | p :: ps =>
      let top := maxBySnd p ps
      { category := top.1
        specialty := (specialty_rules.lookup top.1).getD "General Medicine"
        priority := priority
        confidence := min ((top.2 : ℚ) / 10) 1
        raw_scores := category_scores }

/-- A facility record as handled by `HospitalService` (a database row turned
into a dict; the comma-separated `specialties`/`facilities` strings are
modelled as the lists they are split into).  The four fields added by the
Ranking Engine (`distance_km`, `travel_time_minutes`, `specialty_match`,
`total_score`) are part of the record, set during annotation and scoring. -/
structure Hospital where
  id : Nat
  name : String
  latitude : ℚ
  longitude : ℚ
  address : String
  phone : String
  email : String
  rating : ℚ
  total_reviews : Nat
  has_emergency : Bool
  has_ambulance : Bool
  specialties : List String
  facilities : List String
  open_247 : Bool
  distance_km : ℚ
  travel_time_minutes : ℤ
  specialty_match : Bool
  total_score : ℚ
deriving DecidableEq, Repr

/-- Method `HospitalService._calculate_travel_time`: minutes at 25 km/h, minimum 5. -/
def calculate_travel_time (distance_km : ℚ) : ℤ :=
  max (pyInt (distance_km / 25 * 60)) 5

/-- The loop body of `HospitalService.find_nearby_hospitals` for one facility
whose raw distance is `d`: set `distance_km` (rounded to 2 decimals),
`travel_time_minutes`, and `specialty_match` (the Python falsy test on the
`specialty` argument makes `None` and `""` both yield `true`). -/
def annotateHospital (specialty : Option String) (d : ℚ) (hospital : Hospital) : Hospital :=
  { hospital with
    distance_km := round2 d
    travel_time_minutes := calculate_travel_time d
    specialty_match :=
      match specialty with
      | none => true
      | some sp =>
          if sp = "" then true
          else hospital.specialties.any
            (fun s => isSubstrL (toLowerL sp.toList) (toLowerL s.toList)) }

/-- One step of the stable Python `list.sort`: insert `x` (which came before
every element of the already-sorted list) keeping an element `y` in front of
`x` exactly when `keep y x` holds. -/
def insertBy (keep : Hospital → Hospital → Bool) (x : Hospital) : List Hospital → List Hospital
  | [] => [x]
  | y :: ys => if keep y x then y :: insertBy keep x ys else x :: y :: ys

/-- The stable Python `list.sort` as insertion sort. -/
def sortHospitals (keep : Hospital → Hospital → Bool) : List Hospital → List Hospital
  | [] => []
  | x :: xs => insertBy keep x (sortHospitals keep xs)

/-- Source sort of the annotated list keyed on the stored distance: stable
ascending, so an earlier element stays in front unless strictly nearer. -/
def sortByDistance : List Hospital → List Hospital :=
  sortHospitals (fun y x => y.distance_km < x.distance_km)

/-- Source sort of the scored list keyed on the total score, reversed:
stable descending by score. -/
def sortByScoreDesc : List Hospital → List Hospital :=
  sortHospitals (fun y x => x.total_score < y.total_score)

/-- Method `HospitalService.find_nearby_hospitals`, lines 182-212: the part after the
database fetch (the fetch and its priority-based `WHERE` clause belong to the
external facility source).  `geo` is the external geodesic distance. -/
def find_nearby_hospitals (geo : ℚ × ℚ → ℚ × ℚ → ℚ) (latitude longitude : ℚ)
    (specialty : Option String) (max_distance_km : ℚ)
    (all_hospitals : List Hospital) : List Hospital :=
  let user_location := (latitude, longitude)
  let hospitals_with_distance := all_hospitals.filterMap (fun hospital =>
    let distance_km := geo user_location (hospital.latitude, hospital.longitude)
    if distance_km ≤ max_distance_km then
      some (annotateHospital specialty distance_km hospital)
    else none)
  sortByDistance hospitals_with_distance

/-- The score accumulation in `HospitalService.score_hospitals` for one
facility (before rounding). -/
def scoreHospitalValue (priority : String) (hospital : Hospital) : ℚ :=
  let score : ℚ := 0
  let score :=
    if hospital.specialty_match then score + 40
    else if hospital.specialties.contains "General Medicine" then score + 20
    else score
  let score :=
    if hospital.distance_km ≤ 5 then score + 30
    else if hospital.distance_km ≤ 10 then score + 25
    else if hospital.distance_km ≤ 20 then score + 15
    else if hospital.distance_km ≤ 30 then score + 10
    else score + 5
  let score := score + hospital.rating / 5 * 20
  let score :=
    if priority == "critical" || priority == "urgent" then
      let score := if hospital.has_emergency then score + 10 else score
      if hospital.has_ambulance then score + 5 else score
    else score
  score

/-- Method `HospitalService.score_hospitals` (its `user_lat`/`user_lng` arguments are
unused by the source). -/
def score_hospitals (hospitals : List Hospital) (user_lat user_lng : ℚ)
    (analysis : AnalysisResult) : List Hospital :=
  let scored_hospitals := hospitals.map (fun hospital =>
    { hospital with total_score := round1 (scoreHospitalValue analysis.priority hospital) })
  sortByScoreDesc scored_hospitals

/-- Modelled from the spec: the geodesic distance computation is delegated to
the external geopy library, whose code is not under `src/`; per §7
(`InvalidCoordinate`) a latitude outside `[-90, 90]` or a longitude outside
`[-180, 180]` makes the distance computation fail explicitly instead of
producing a value.  `dist` is the in-range distance model. -/
def geodesicE (dist : ℚ × ℚ → ℚ × ℚ → ℚ) (p q : ℚ × ℚ) : Except String ℚ :=
  if p.1 < -90 ∨ 90 < p.1 ∨ q.1 < -90 ∨ 90 < q.1 then
    Except.error "invalid latitude"
  else if p.2 < -180 ∨ 180 < p.2 ∨ q.2 < -180 ∨ 180 < q.2 then
    Except.error "invalid longitude"
  else Except.ok (dist p q)

/-- The annotation loop of `find_nearby_hospitals` with the failing distance
computation `geodesicE`: the first invalid coordinate aborts the whole call
(Python propagates the exception). -/
def annotateAllE (dist : ℚ × ℚ → ℚ × ℚ → ℚ) (user_location : ℚ × ℚ)
    (specialty : Option String) (max_distance_km : ℚ) :
    List Hospital → Except String (List Hospital)
  | [] => Except.ok []
  | hospital :: rest =>
    match geodesicE dist user_location (hospital.latitude, hospital.longitude) with
    | Except.error e => Except.error e
    | Except.ok d =>
      match annotateAllE dist user_location specialty max_distance_km rest with
      | Except.error e => Except.error e
      | Except.ok tl =>
          Except.ok (if d ≤ max_distance_km then annotateHospital specialty d hospital :: tl else tl)

/-- Variant of `find_nearby_hospitals` with the failing distance model of `geodesicE`. -/
def find_nearby_hospitalsE (dist : ℚ × ℚ → ℚ × ℚ → ℚ) (latitude longitude : ℚ)
    (specialty : Option String) (max_distance_km : ℚ)
    (all_hospitals : List Hospital) : Except String (List Hospital) :=
  (annotateAllE dist (latitude, longitude) specialty max_distance_km all_hospitals).map
    sortByDistance

/-! Specification-side reformulations used in the claim statements. -/

/-- Claim-side score of a single trigger phrase against the normalized text:
3 for a full-phrase match, else 1 when some word of the phrase matches, else 0. -/
def phraseScore (symptoms : List Char) (keyword : String) : Nat :=
  if isSubstrL keyword.toList symptoms then 3
  else if (splitWords keyword.toList).any (fun w => isSubstrL w symptoms) then 1
  else 0

/-- Claim-side category score: sum of the phrase scores. -/
def catScoreSpec (symptoms : List Char) (keywords : List String) : Nat :=
  (keywords.map (phraseScore symptoms)).sum

/-- Claim-side specialty component of the facility score. -/
def specialtyComponent (hospital : Hospital) : ℚ :=
  if hospital.specialty_match then 40
  else if hospital.specialties.contains "General Medicine" then 20
  else 0

/-- Claim-side distance-tier component of the facility score. -/
def distanceComponent (hospital : Hospital) : ℚ :=
  if hospital.distance_km ≤ 5 then 30
  else if hospital.distance_km ≤ 10 then 25
  else if hospital.distance_km ≤ 20 then 15
  else if hospital.distance_km ≤ 30 then 10
  else 5

/-- Claim-side rating component of the facility score. -/
def ratingComponent (hospital : Hospital) : ℚ :=
  hospital.rating / 5 * 20

/-- Claim-side readiness component of the facility score. -/
def readinessComponent (priority : String) (hospital : Hospital) : ℚ :=
  if priority = "critical" ∨ priority = "urgent" then
    (if hospital.has_emergency then 10 else 0) + (if hospital.has_ambulance then 5 else 0)
  else 0

/-- Forget the `total_score` field (for the frame/permutation claim). -/
def clearScore (hospital : Hospital) : Hospital :=
  { hospital with total_score := 0 }

/-- Output-order contract of the stable descending sort of Stage 2: the
strictly higher score comes first, and equal scores keep ascending distance. -/
def descStable (a b : Hospital) : Prop :=
  b.total_score < a.total_score ∨
    (a.total_score = b.total_score ∧ a.distance_km ≤ b.distance_km)

/-- A concrete facility record, used to instantiate the universally
quantified theorems at concrete inputs. -/
def sampleFacility : Hospital :=
  { id := 1
    name := "Sample Hospital"
    latitude := 17
    longitude := 83
    address := "Sample Street"
    phone := "000"
    email := "sample@example.com"
    rating := 4
    total_reviews := 100
    has_emergency := true
    has_ambulance := true
    specialties := ["General Medicine", "Cardiology"]
    facilities := ["ICU"]
    open_247 := true
    distance_km := 0
    travel_time_minutes := 0
    specialty_match := true
    total_score := 0 }

/-- The example facility in §8 of the spec: distance 4.9 km, specialty match, rating 4.5. -/
def exampleFacility : Hospital :=
  { sampleFacility with distance_km := 49 / 10, rating := 9 / 2 }

/-- A concrete analysis result with `priority = "normal"`, for instantiations. -/
def sampleAnalysis : AnalysisResult :=
  { category := "general"
    specialty := "General Medicine"
    priority := "normal"
    confidence := 1 / 2
    raw_scores := [] }


/-! ### Lemmas about the stable insertion sort -/

theorem insertBy_perm (keep : Hospital → Hospital → Bool) (x : Hospital) (l : List Hospital) :
    (insertBy keep x l).Perm (x :: l) := by
  induction l with
  | nil => simp [insertBy]
  | cons y ys ih =>
    by_cases h : keep y x = true
    · simp only [insertBy, h, if_true]
      exact (ih.cons y).trans (List.Perm.swap x y ys)
    · simp [insertBy, h]

theorem sortHospitals_perm (keep : Hospital → Hospital → Bool) (l : List Hospital) :
    (sortHospitals keep l).Perm l := by
  induction l with
  | nil => simp [sortHospitals]
  | cons x xs ih => exact (insertBy_perm keep x _).trans (ih.cons x)

theorem pairwise_insertBy {S : Hospital → Hospital → Prop} (keep : Hospital → Hospital → Bool)
    (x : Hospital) (l : List Hospital)
    (hl : l.Pairwise S)
    (hkeep : ∀ y ∈ l, keep y x = true → S y x)
    (hout : ∀ y ∈ l, keep y x = false → S x y)
    (hmono : ∀ y z, keep y x = false → S y z → keep z x = false) :
    (insertBy keep x l).Pairwise S := by
  induction l with
  | nil => simp [insertBy]
  | cons y ys ih =>
    rcases List.pairwise_cons.mp hl with ⟨hy, hys⟩
    by_cases h : keep y x = true
    · simp only [insertBy, h, if_true]
      refine List.pairwise_cons.mpr ⟨?_, ?_⟩
      · intro z hz
        rcases List.mem_cons.mp ((insertBy_perm keep x ys).mem_iff.mp hz) with rfl | hz'
        · exact hkeep y (List.mem_cons_self _ _) h
        · exact hy z hz'
      · exact ih hys (fun a ha hk => hkeep a (List.mem_cons_of_mem _ ha) hk)
          (fun a ha hk => hout a (List.mem_cons_of_mem _ ha) hk)
    · have hfalse : keep y x = false := Bool.eq_false_iff.mpr h
      simp only [insertBy, h, if_false]
      refine List.pairwise_cons.mpr ⟨?_, hl⟩
      intro z hz
      rcases List.mem_cons.mp hz with hzy | hz'
      · rw [hzy]
        exact hout y (List.mem_cons_self _ _) hfalse
      · by_cases hzb : keep z x = true
        · have := hmono y z hfalse (hy z hz')
          rw [this] at hzb
          cases hzb
        · exact hout z (List.mem_cons_of_mem _ hz') (Bool.eq_false_iff.mpr hzb)

theorem pairwise_sortByScoreDesc (l : List Hospital)
    (hd : l.Pairwise (fun a b => a.distance_km ≤ b.distance_km)) :
    (sortByScoreDesc l).Pairwise descStable := by
  induction l with
  | nil => simp [sortByScoreDesc, sortHospitals]
  | cons x xs ih =>
    rcases List.pairwise_cons.mp hd with ⟨hx, hxs⟩
    show (insertBy _ x (sortHospitals _ xs)).Pairwise descStable
    refine pairwise_insertBy _ x _ (ih hxs) ?_ ?_ ?_
    · intro y _ hk
      exact Or.inl (of_decide_eq_true hk)
    · intro y hy hk
      have hle : y.total_score ≤ x.total_score := not_lt.mp (of_decide_eq_false hk)
      rcases hle.lt_or_eq with hlt | heq
      · exact Or.inl hlt
      · exact Or.inr ⟨heq.symm, hx y ((sortHospitals_perm _ xs).mem_iff.mp hy)⟩
    · intro y z hkf hS
      have hyx : y.total_score ≤ x.total_score := not_lt.mp (of_decide_eq_false hkf)
      have hzy : z.total_score ≤ y.total_score := by
        rcases hS with h | ⟨h, _⟩
        · exact le_of_lt h
        · exact le_of_eq h.symm
      exact decide_eq_false (not_lt.mpr (hzy.trans hyx))

/-- C2. For every annotated input list sorted ascending by `distance_km`
(the Stage 1 output order), `score_hospitals` returns a list sorted
non-increasing by `total_score`, and among equal scores the smaller
`distance_km` comes first (the sort is stable and keyed only on the score). -/
theorem score_hospitals_sorted_stable (hospitals : List Hospital) (user_lat user_lng : ℚ)
    (analysis : AnalysisResult)
    (hsort : hospitals.Pairwise (fun a b => a.distance_km ≤ b.distance_km)) :
    (score_hospitals hospitals user_lat user_lng analysis).Pairwise (fun a b =>
      b.total_score ≤ a.total_score ∧
      (a.total_score = b.total_score → a.distance_km ≤ b.distance_km)) := by
  have hmap : (hospitals.map (fun hospital =>
      { hospital with
        total_score := round1 (scoreHospitalValue analysis.priority hospital) })).Pairwise
      (fun a b => a.distance_km ≤ b.distance_km) := by
    exact hsort.map _ (fun a b hab => hab)
  have := pairwise_sortByScoreDesc _ hmap
  refine this.imp ?_
  intro a b hab
  rcases hab with h | ⟨h, hd⟩
  · refine ⟨le_of_lt h, fun heq => ?_⟩
    rw [heq] at h
    exact absurd h (lt_irrefl _)
  · exact ⟨le_of_eq h.symm, fun _ => hd⟩

/-- Witness for C2 at a concrete two-element list. -/
theorem score_hospitals_sorted_stable_witness :
    ([{ sampleFacility with distance_km := 1 },
      { sampleFacility with distance_km := 2 }] : List Hospital).Pairwise
        (fun a b => a.distance_km ≤ b.distance_km) ∧
    (score_hospitals
        [{ sampleFacility with distance_km := 1 },
         { sampleFacility with distance_km := 2 }] 17 83 sampleAnalysis).Pairwise (fun a b =>
      b.total_score ≤ a.total_score ∧
      (a.total_score = b.total_score → a.distance_km ≤ b.distance_km)) :=
  ⟨by decide, score_hospitals_sorted_stable _ 17 83 sampleAnalysis (by decide)⟩

/-- C9. `score_hospitals` returns a permutation of its input: apart from
the overwritten `total_score` field, every facility record is unchanged, and
none is dropped, added or duplicated. -/
theorem score_hospitals_frame (hospitals : List Hospital) (user_lat user_lng : ℚ)
    (analysis : AnalysisResult) :
    ((score_hospitals hospitals user_lat user_lng analysis).map clearScore).Perm
      (hospitals.map clearScore) ∧
    ∀ g ∈ score_hospitals hospitals user_lat user_lng analysis, ∃ h ∈ hospitals,
      g = { h with total_score := round1 (scoreHospitalValue analysis.priority h) } := by
  constructor
  · have hperm := (sortHospitals_perm (fun y x => x.total_score < y.total_score)
      (hospitals.map (fun hospital =>
        { hospital with
          total_score := round1 (scoreHospitalValue analysis.priority hospital) }))).map clearScore
    refine hperm.trans ?_
    rw [List.map_map]
    exact List.Perm.of_eq (List.map_congr_left (fun a _ => rfl))
  · intro g hg
    have hmem : g ∈ hospitals.map (fun hospital =>
        { hospital with
          total_score := round1 (scoreHospitalValue analysis.priority hospital) }) :=
      (sortHospitals_perm _ _).mem_iff.mp hg
    rcases List.mem_map.mp hmem with ⟨h, hh, rfl⟩
    exact ⟨h, hh, rfl⟩

/-! ### Stage 1: geofilter and annotate -/

theorem filterMap_if_eq_map_filter (P : Hospital → Prop) [DecidablePred P]
    (f : Hospital → Hospital) (l : List Hospital) :
    (l.filterMap (fun h => if P h then some (f h) else none))
      = (l.filter (fun h => decide (P h))).map f := by
  induction l with
  | nil => rfl
  | cons a l ih =>
    by_cases h : P a
    · simp [List.filterMap_cons, List.filter_cons, h, ih]
    · simp [List.filterMap_cons, List.filter_cons, h, ih]

/-- C6. The annotation stage returns exactly the candidates whose computed
distance is at most `max_distance_km` (the boundary is included, anything
strictly beyond is excluded), each annotated by `annotateHospital`; every
returned facility has `travel_time_minutes = max 5 ⌊d / 25 * 60⌋ ≥ 5`. -/
theorem find_nearby_exact_filter (geo : ℚ × ℚ → ℚ × ℚ → ℚ) (latitude longitude : ℚ)
    (specialty : Option String) (max_distance_km : ℚ) (all_hospitals : List Hospital)
    (hpos : ∀ h ∈ all_hospitals, 0 ≤ geo (latitude, longitude) (h.latitude, h.longitude)) :
    (find_nearby_hospitals geo latitude longitude specialty max_distance_km
        all_hospitals).Perm
      ((all_hospitals.filter (fun h =>
          decide (geo (latitude, longitude) (h.latitude, h.longitude) ≤ max_distance_km))).map
        (fun h => annotateHospital specialty
          (geo (latitude, longitude) (h.latitude, h.longitude)) h)) ∧
    ∀ g ∈ find_nearby_hospitals geo latitude longitude specialty max_distance_km all_hospitals,
      5 ≤ g.travel_time_minutes ∧
      ∃ h ∈ all_hospitals,
        geo (latitude, longitude) (h.latitude, h.longitude) ≤ max_distance_km ∧
        g = annotateHospital specialty (geo (latitude, longitude) (h.latitude, h.longitude)) h ∧
        g.travel_time_minutes
          = max 5 ⌊geo (latitude, longitude) (h.latitude, h.longitude) / 25 * 60⌋ := by
  have he : all_hospitals.filterMap (fun hospital =>
        if geo (latitude, longitude) (hospital.latitude, hospital.longitude) ≤ max_distance_km
        then some (annotateHospital specialty
          (geo (latitude, longitude) (hospital.latitude, hospital.longitude)) hospital)
        else none)
      = (all_hospitals.filter (fun h =>
          decide (geo (latitude, longitude) (h.latitude, h.longitude) ≤ max_distance_km))).map
        (fun h => annotateHospital specialty
          (geo (latitude, longitude) (h.latitude, h.longitude)) h) :=
    filterMap_if_eq_map_filter _ _ all_hospitals
  constructor
  · exact (sortHospitals_perm _ _).trans (by rw [he])
  · intro g hg
    have hg' : g ∈ (all_hospitals.filter (fun h =>
        decide (geo (latitude, longitude) (h.latitude, h.longitude) ≤ max_distance_km))).map
        (fun h => annotateHospital specialty
          (geo (latitude, longitude) (h.latitude, h.longitude)) h) := by
      rw [← he]
      exact (sortHospitals_perm _ _).mem_iff.mp hg
    rcases List.mem_map.mp hg' with ⟨h, hh, rfl⟩
    rcases List.mem_filter.mp hh with ⟨hmem, hdec⟩
    have hle : geo (latitude, longitude) (h.latitude, h.longitude) ≤ max_distance_km :=
      of_decide_eq_true hdec
    have hq : (0 : ℚ) ≤ geo (latitude, longitude) (h.latitude, h.longitude) / 25 * 60 := by
      have := hpos h hmem
      positivity
    have htt : (annotateHospital specialty
        (geo (latitude, longitude) (h.latitude, h.longitude)) h).travel_time_minutes
        = max 5 ⌊geo (latitude, longitude) (h.latitude, h.longitude) / 25 * 60⌋ := by
      show calculate_travel_time _ = _
      rw [calculate_travel_time, pyInt, if_pos hq, max_comm]
    refine ⟨?_, h, hmem, hle, rfl, htt⟩
    rw [htt]
    exact le_max_left _ _

/-- Witness for C6 at a concrete distance model and candidate list. -/
theorem find_nearby_exact_filter_witness :
    (∀ h ∈ [sampleFacility], (0 : ℚ) ≤ (fun _ _ => (3 : ℚ)) ((17 : ℚ), (83 : ℚ))
        (h.latitude, h.longitude)) ∧
    ((find_nearby_hospitals (fun _ _ => (3 : ℚ)) 17 83 none 50 [sampleFacility]).Perm
      (([sampleFacility].filter (fun h =>
          decide ((fun _ _ => (3 : ℚ)) ((17 : ℚ), (83 : ℚ)) (h.latitude, h.longitude) ≤ 50))).map
        (fun h => annotateHospital none
          ((fun _ _ => (3 : ℚ)) ((17 : ℚ), (83 : ℚ)) (h.latitude, h.longitude)) h)) ∧
    ∀ g ∈ find_nearby_hospitals (fun _ _ => (3 : ℚ)) 17 83 none 50 [sampleFacility],
      5 ≤ g.travel_time_minutes ∧
      ∃ h ∈ [sampleFacility],
        (fun _ _ => (3 : ℚ)) ((17 : ℚ), (83 : ℚ)) (h.latitude, h.longitude) ≤ 50 ∧
        g = annotateHospital none
          ((fun _ _ => (3 : ℚ)) ((17 : ℚ), (83 : ℚ)) (h.latitude, h.longitude)) h ∧
        g.travel_time_minutes
          = max 5 ⌊(fun _ _ => (3 : ℚ)) ((17 : ℚ), (83 : ℚ)) (h.latitude, h.longitude) / 25 * 60⌋) :=
  ⟨by intro h _; norm_num,
   find_nearby_exact_filter (fun _ _ => (3 : ℚ)) 17 83 none 50 [sampleFacility]
     (by intro h _; norm_num)⟩

/-- C8. With the spec-modelled failing distance computation, a user
latitude outside `[-90, 90]` or longitude outside `[-180, 180]` makes the
annotation stage fail explicitly on any non-empty candidate list, rather than
return a value. -/
theorem find_nearbyE_invalid_coordinate (dist : ℚ × ℚ → ℚ × ℚ → ℚ)
    (latitude longitude : ℚ) (specialty : Option String) (max_distance_km : ℚ)
    (h0 : Hospital) (rest : List Hospital)
    (hbad : latitude < -90 ∨ 90 < latitude ∨ longitude < -180 ∨ 180 < longitude) :
    ∃ e, find_nearby_hospitalsE dist latitude longitude specialty max_distance_km
        (h0 :: rest) = Except.error e := by
  by_cases hc : latitude < -90 ∨ 90 < latitude ∨ h0.latitude < -90 ∨ 90 < h0.latitude
  · refine ⟨"invalid latitude", ?_⟩
    have h1 : geodesicE dist (latitude, longitude) (h0.latitude, h0.longitude)
        = Except.error "invalid latitude" := by
      unfold geodesicE
      rw [if_pos]
      simpa using hc
    simp [find_nearby_hospitalsE, annotateAllE, h1, Except.map]
  · have hlng : longitude < -180 ∨ 180 < longitude := by tauto
    refine ⟨"invalid longitude", ?_⟩
    have h1 : geodesicE dist (latitude, longitude) (h0.latitude, h0.longitude)
        = Except.error "invalid longitude" := by
      have hc1 : ¬(((latitude, longitude) : ℚ × ℚ).1 < -90 ∨
          90 < ((latitude, longitude) : ℚ × ℚ).1 ∨
          ((h0.latitude, h0.longitude) : ℚ × ℚ).1 < -90 ∨
          90 < ((h0.latitude, h0.longitude) : ℚ × ℚ).1) := by
        simpa using hc
      have hc2 : ((latitude, longitude) : ℚ × ℚ).2 < -180 ∨
          180 < ((latitude, longitude) : ℚ × ℚ).2 ∨
          ((h0.latitude, h0.longitude) : ℚ × ℚ).2 < -180 ∨
          180 < ((h0.latitude, h0.longitude) : ℚ × ℚ).2 := by
        rcases hlng with h | h
        · exact Or.inl h
        · exact Or.inr (Or.inl h)
      unfold geodesicE
      rw [if_neg hc1, if_pos hc2]
    simp [find_nearby_hospitalsE, annotateAllE, h1, Except.map]

/-- Witness for C8 at a concrete out-of-range latitude. -/
theorem find_nearbyE_invalid_coordinate_witness :
    ((100 : ℚ) < -90 ∨ (90 : ℚ) < 100 ∨ (0 : ℚ) < -180 ∨ (180 : ℚ) < 0) ∧
    ∃ e, find_nearby_hospitalsE (fun _ _ => (3 : ℚ)) 100 0 none 50
        (sampleFacility :: []) = Except.error e :=
  ⟨by norm_num,
   find_nearbyE_invalid_coordinate (fun _ _ => (3 : ℚ)) 100 0 none 50 sampleFacility []
     (by norm_num)⟩

/-! ### Lemmas about the category scoring -/

theorem catScore_foldl_eq (symptoms : List Char) :
    ∀ (keywords : List String) (a : Nat),
      keywords.foldl
        (fun score keyword =>
          if isSubstrL keyword.toList symptoms then score + 3
          else if (splitWords keyword.toList).any (fun w => isSubstrL w symptoms) then score + 1
          else score) a
      = a + catScoreSpec symptoms keywords := by
  intro keywords
  induction keywords with
  | nil => intro a; simp [catScoreSpec]
  | cons k ks ih =>
    intro a
    rw [List.foldl_cons, ih]
    have hsum : catScoreSpec symptoms (k :: ks)
        = phraseScore symptoms k + catScoreSpec symptoms ks := by
      simp [catScoreSpec]
    rw [hsum]
    have hps : phraseScore symptoms k
        = if isSubstrL k.toList symptoms then 3
          else if (splitWords k.toList).any (fun w => isSubstrL w symptoms) then 1
          else 0 := rfl
    rw [hps]
    by_cases h1 : isSubstrL k.toList symptoms = true
    · simp only [if_pos h1]
      omega
    · by_cases h2 : (splitWords k.toList).any (fun w => isSubstrL w symptoms) = true
      · simp only [if_neg h1, if_pos h2]
        omega
      · simp only [if_neg h1, if_neg h2]
        omega

theorem catScore_eq (symptoms : List Char) (keywords : List String) :
    catScore symptoms keywords = catScoreSpec symptoms keywords := by
  unfold catScore
  rw [catScore_foldl_eq]
  omega

theorem filterMap_pos_eq (g : (String × List String) → Nat) :
    ∀ tbl : List (String × List String),
      tbl.filterMap (fun p => if 0 < g p then some (p.1, g p) else none)
      = (tbl.map (fun p => (p.1, g p))).filter (fun q => decide (0 < q.2)) := by
  intro tbl
  induction tbl with
  | nil => rfl
  | cons p tbl ih =>
    by_cases h : 0 < g p
    · simp [List.filterMap_cons, List.filter_cons, h, ih]
    · simp [List.filterMap_cons, List.filter_cons, h, ih]

theorem filterMap_pos_fst_sublist (g : (String × List String) → Nat) :
    ∀ tbl : List (String × List String),
      ((tbl.filterMap (fun p => if 0 < g p then some (p.1, g p) else none)).map
        Prod.fst).Sublist (tbl.map Prod.fst) := by
  intro tbl
  induction tbl with
  | nil => simp
  | cons p tbl ih =>
    by_cases h : 0 < g p
    · simp only [List.filterMap_cons, if_pos h, List.map_cons]
      exact ih.cons₂ p.1
    · simp only [List.filterMap_cons, if_neg h, List.map_cons]
      exact ih.cons p.1

/-- C3. For every input text, the category scores are computed, in the fixed
table order, as the per-category sums of the phrase scores (3 for a
full-phrase substring match, else 1 when some individual word of the phrase
matches — evaluated only when the full phrase did not match, so each phrase
contributes at most 3, else 0), and `raw_scores` contains exactly the
categories whose score is strictly positive. -/
theorem score_categories_formula (symptoms : List Char) :
    score_categories symptoms
      = (medical_keywords.map (fun p => (p.1, catScoreSpec symptoms p.2))).filter
          (fun q => decide (0 < q.2)) := by
  have h1 : score_categories symptoms
      = (medical_keywords.map (fun p => (p.1, catScore symptoms p.2))).filter
          (fun q => decide (0 < q.2)) :=
    filterMap_pos_eq (fun p => catScore symptoms p.2) medical_keywords
  rw [h1]
  congr 1
  exact List.map_congr_left (fun p _ => by rw [catScore_eq])

theorem score_categories_fst_sublist (symptoms : List Char) :
    ((score_categories symptoms).map Prod.fst).Sublist (medical_keywords.map Prod.fst) :=
  filterMap_pos_fst_sublist (fun p => catScore symptoms p.2) medical_keywords

theorem score_categories_pos (symptoms : List Char) :
    ∀ q ∈ score_categories symptoms, 1 ≤ q.2 := by
  intro q hq
  unfold score_categories at hq
  rcases List.mem_filterMap.mp hq with ⟨p, _, hpq⟩
  simp only [] at hpq
  split at hpq
  · cases hpq
    assumption
  · cases hpq

/-! ### Lemmas about the winner selection -/

theorem maxBySnd_le (ps : List (String × Nat)) :
    ∀ (best : String × Nat), ∀ q ∈ best :: ps, q.2 ≤ (maxBySnd best ps).2 := by
  induction ps with
  | nil =>
    intro best q hq
    rcases List.mem_cons.mp hq with rfl | h
    · exact le_refl _
    · simp at h
  | cons p ps ih =>
    intro best q hq
    have hred : maxBySnd best (p :: ps) = maxBySnd (if best.2 < p.2 then p else best) ps := rfl
    rw [hred]
    have hb : best.2 ≤ (if best.2 < p.2 then p else best).2 := by
      split
      · exact le_of_lt (by assumption)
      · exact le_refl _
    have hp : p.2 ≤ (if best.2 < p.2 then p else best).2 := by
      split
      · exact le_refl _
      · exact le_of_not_lt (by assumption)
    have hm : (if best.2 < p.2 then p else best).2
        ≤ (maxBySnd (if best.2 < p.2 then p else best) ps).2 :=
      ih _ _ (List.mem_cons_self _ _)
    rcases List.mem_cons.mp hq with rfl | hq'
    · exact hb.trans hm
    · rcases List.mem_cons.mp hq' with rfl | hq''
      · exact hp.trans hm
      · exact ih _ q (List.mem_cons_of_mem _ hq'')

theorem maxBySnd_split (ps : List (String × Nat)) :
    ∀ (best : String × Nat),
      ∃ l1 l2, best :: ps = l1 ++ (maxBySnd best ps) :: l2
        ∧ (∀ q ∈ l1, q.2 < (maxBySnd best ps).2)
        ∧ (∀ q ∈ l2, q.2 ≤ (maxBySnd best ps).2) := by
  induction ps with
  | nil =>
    intro best
    exact ⟨[], [], rfl, by simp, by simp⟩
  | cons p ps ih =>
    intro best
    have hred : maxBySnd best (p :: ps) = maxBySnd (if best.2 < p.2 then p else best) ps := rfl
    rw [hred]
    obtain ⟨l1, l2, heq, hlt, hle⟩ := ih (if best.2 < p.2 then p else best)
    by_cases hb : best.2 < p.2
    · rw [if_pos hb] at heq hlt hle ⊢
      refine ⟨best :: l1, l2, ?_, ?_, hle⟩
      · rw [List.cons_append, ← heq]
      · intro q hq
        rcases List.mem_cons.mp hq with rfl | hq'
        · have hpm : p.2 ≤ (maxBySnd p ps).2 := maxBySnd_le ps p p (List.mem_cons_self _ _)
          exact lt_of_lt_of_le hb hpm
        · exact hlt q hq'
    · rw [if_neg hb] at heq hlt hle ⊢
      cases l1 with
      | nil =>
        injection heq with h1 h2
        refine ⟨[], p :: ps, ?_, by simp, ?_⟩
        · rw [List.nil_append, ← h1]
        · intro q hq
          rcases List.mem_cons.mp hq with rfl | hq'
          · rw [← h1]
            exact le_of_not_lt hb
          · exact hle q (h2 ▸ hq')
      | cons b t =>
        rw [List.cons_append] at heq
        injection heq with h1 h2
        refine ⟨best :: p :: t, l2, ?_, ?_, hle⟩
        · have hx : best :: p :: ps = best :: p :: (t ++ maxBySnd best ps :: l2) := by
            rw [← h2]
          simpa using hx
        · intro q hq
          have hbmem : best ∈ b :: t := by rw [← h1]; exact List.mem_cons_self _ _
          have hbm : best.2 < (maxBySnd best ps).2 := hlt best hbmem
          rcases List.mem_cons.mp hq with rfl | hq'
          · exact hbm
          · rcases List.mem_cons.mp hq' with rfl | hq''
            · exact lt_of_le_of_lt (le_of_not_lt hb) hbm
            · exact hlt q (List.mem_cons_of_mem _ hq'')

theorem maxBySnd_mem (ps : List (String × Nat)) :
    ∀ best, maxBySnd best ps ∈ best :: ps := by
  intro best
  obtain ⟨l1, l2, heq, _, _⟩ := maxBySnd_split ps best
  rw [heq]
  exact List.mem_append.mpr (Or.inr (List.mem_cons_self _ _))

/-! ### Case equations for `analyze` on the base language -/

theorem analyze_en_empty (symptoms : String)
    (h : score_categories (toLowerL symptoms.toList) = []) :
    analyze symptoms "en" =
      { category := "general", specialty := "General Medicine",
        priority := determine_priority (toLowerL symptoms.toList),
        confidence := 1 / 2, raw_scores := [] } := by
  have hlook : ((specialty_rules.lookup "general").getD "General Medicine")
      = "General Medicine" := by decide
  have h' : score_categories (toLowerL symptoms.data) = [] := h
  simp [analyze, h', hlook]

theorem analyze_en_cons (symptoms : String) (p : String × Nat) (ps : List (String × Nat))
    (h : score_categories (toLowerL symptoms.toList) = p :: ps) :
    analyze symptoms "en" =
      { category := (maxBySnd p ps).1
        specialty := (specialty_rules.lookup (maxBySnd p ps).1).getD "General Medicine"
        priority := determine_priority (toLowerL symptoms.toList)
        confidence := min (((maxBySnd p ps).2 : ℚ) / 10) 1
        raw_scores := p :: ps } := by
  have h' : score_categories (toLowerL symptoms.data) = p :: ps := h
  simp [analyze, h']

/-- C5. The priority of the analysis result depends only on the two
priority phrase lists, independently of the category winner: it is
`"critical"` when some critical-list phrase occurs as a substring of the
normalized text, else `"urgent"` when some urgent-list phrase occurs,
else `"normal"`. -/
theorem analyze_priority_rule (symptoms : String) :
    (analyze symptoms "en").priority =
      if ∃ keyword ∈ priority_critical,
          isSubstrL keyword.toList (toLowerL symptoms.toList) = true
      then "critical"
      else if ∃ keyword ∈ priority_urgent,
          isSubstrL keyword.toList (toLowerL symptoms.toList) = true
      then "urgent"
      else "normal" := by
  have hp : (analyze symptoms "en").priority
      = determine_priority (toLowerL symptoms.toList) := by
    cases h : score_categories (toLowerL symptoms.toList) with
    | nil => rw [analyze_en_empty symptoms h]
    | cons p ps => rw [analyze_en_cons symptoms p ps h]
  rw [hp]
  unfold determine_priority
  simp only [List.any_eq_true]

/-- C4 counterexample. For the input `"very dizzy"` no category scores
above zero (`raw_scores = []`, category `general`, confidence 0.5), yet the
returned priority is `"urgent"`, not `"normal"`: the claimed else-branch
priority is wrong. -/
theorem analyze_very_dizzy_not_normal :
    (analyze "very dizzy" "en").raw_scores = [] ∧
    (analyze "very dizzy" "en").category = "general" ∧
    (analyze "very dizzy" "en").priority = "urgent" ∧
    ¬(analyze "very dizzy" "en").priority = "normal" :=
  ⟨by decide, by decide, by decide, by decide⟩

/-- C4, amended. `analyze` never fails; when no category scores above
zero it returns category `"general"`, specialty `"General Medicine"` and
confidence 0.5 (the priority is determined independently by the priority
lists and can differ from `"normal"`); otherwise the winning category is the
first maximal-score entry of `raw_scores` — hence the earliest in the fixed
KeywordTable order, which `raw_scores` follows — with
confidence `min (score / 10) 1`. -/
theorem analyze_winner_selection (symptoms : String) :
    ((analyze symptoms "en").raw_scores = [] →
      (analyze symptoms "en").category = "general" ∧
      (analyze symptoms "en").specialty = "General Medicine" ∧
      (analyze symptoms "en").confidence = 1 / 2) ∧
    ((analyze symptoms "en").raw_scores.map Prod.fst).Sublist
      ["cardiovascular", "respiratory", "neurological", "gastrointestinal",
       "orthopedic", "infectious", "emergency", "pediatric", "gynecological",
       "dermatology", "ophthalmology", "ent", "general"] ∧
    ((analyze symptoms "en").raw_scores ≠ [] →
      ∃ (s : Nat) (l1 l2 : List (String × Nat)),
        (analyze symptoms "en").raw_scores
          = l1 ++ ((analyze symptoms "en").category, s) :: l2 ∧
        (∀ q ∈ l1, q.2 < s) ∧ (∀ q ∈ l2, q.2 ≤ s) ∧
        (analyze symptoms "en").confidence = min ((s : ℚ) / 10) 1) := by
  have horder : medical_keywords.map Prod.fst
      = ["cardiovascular", "respiratory", "neurological", "gastrointestinal",
         "orthopedic", "infectious", "emergency", "pediatric", "gynecological",
         "dermatology", "ophthalmology", "ent", "general"] := by decide
  cases h : score_categories (toLowerL symptoms.toList) with
  | nil =>
    rw [analyze_en_empty symptoms h]
    refine ⟨fun _ => ⟨rfl, rfl, rfl⟩, by simp, fun hne => absurd rfl hne⟩
  | cons p ps =>
    rw [analyze_en_cons symptoms p ps h]
    refine ⟨fun hempty => absurd hempty (by simp), ?_, fun _ => ?_⟩
    · show ((p :: ps).map Prod.fst).Sublist _
      rw [← h, ← horder]
      exact score_categories_fst_sublist (toLowerL symptoms.toList)
    · obtain ⟨l1, l2, heq, hlt, hle⟩ := maxBySnd_split ps p
      refine ⟨(maxBySnd p ps).2, l1, l2, ?_, hlt, hle, rfl⟩
      show (p :: ps) = l1 ++ ((maxBySnd p ps).1, (maxBySnd p ps).2) :: l2
      rw [Prod.mk.eta]
      exact heq

/-- Witness for C4 at the concrete inputs `"zzz"` (no match) and
`"poisoning"` (one partial match). -/
theorem analyze_winner_selection_witness :
    ((analyze "zzz" "en").category = "general" ∧
      (analyze "zzz" "en").specialty = "General Medicine" ∧
      (analyze "zzz" "en").confidence = 1 / 2) ∧
    ∃ (s : Nat) (l1 l2 : List (String × Nat)),
      (analyze "poisoning" "en").raw_scores
        = l1 ++ ((analyze "poisoning" "en").category, s) :: l2 ∧
      (∀ q ∈ l1, q.2 < s) ∧ (∀ q ∈ l2, q.2 ≤ s) ∧
      (analyze "poisoning" "en").confidence = min ((s : ℚ) / 10) 1 :=
  ⟨(analyze_winner_selection "zzz").1 (by decide),
   (analyze_winner_selection "poisoning").2.2 (by decide)⟩

/-- C10. Whenever `raw_scores` is non-empty the confidence lies in
`[0.1, 1]`; in particular the single-partial-match input `"poisoning"` gets
confidence `0.1`, strictly below the `0.5` returned when nothing matches. -/
theorem confidence_bounds (symptoms : String)
    (hne : (analyze symptoms "en").raw_scores ≠ []) :
    ((1 : ℚ) / 10 ≤ (analyze symptoms "en").confidence ∧
      (analyze symptoms "en").confidence ≤ 1) ∧
    ((analyze "poisoning" "en").raw_scores ≠ [] ∧
      (analyze "poisoning" "en").confidence = 1 / 10 ∧ ((1 : ℚ) / 10 < 1 / 2)) := by
  constructor
  · cases h : score_categories (toLowerL symptoms.toList) with
    | nil =>
      rw [analyze_en_empty symptoms h] at hne
      simp at hne
    | cons p ps =>
      rw [analyze_en_cons symptoms p ps h]
      constructor
      · show (1 : ℚ) / 10 ≤ min (((maxBySnd p ps).2 : ℚ) / 10) 1
        have hmem : maxBySnd p ps ∈ p :: ps := maxBySnd_mem ps p
        have h1 : 1 ≤ (maxBySnd p ps).2 :=
          score_categories_pos (toLowerL symptoms.toList) (maxBySnd p ps) (h ▸ hmem)
        have h1q : (1 : ℚ) ≤ ((maxBySnd p ps).2 : ℚ) := by exact_mod_cast h1
        refine le_min (by linarith) (by norm_num)
      · show min (((maxBySnd p ps).2 : ℚ) / 10) 1 ≤ 1
        exact min_le_right _ _
  · refine ⟨by decide, ?_, by norm_num⟩
    have h : score_categories (toLowerL "poisoning".toList)
        = [("gastrointestinal", 1)] := by decide
    rw [analyze_en_cons "poisoning" ("gastrointestinal", 1) [] h]
    show min (((maxBySnd ("gastrointestinal", 1) []).2 : ℚ) / 10) 1 = 1 / 10
    norm_num [maxBySnd]

/-- Witness for C10 at the concrete input `"poisoning"`. -/
theorem confidence_bounds_witness :
    (analyze "poisoning" "en").raw_scores ≠ [] ∧
    (((1 : ℚ) / 10 ≤ (analyze "poisoning" "en").confidence ∧
      (analyze "poisoning" "en").confidence ≤ 1) ∧
    ((analyze "poisoning" "en").raw_scores ≠ [] ∧
      (analyze "poisoning" "en").confidence = 1 / 10 ∧ ((1 : ℚ) / 10 < 1 / 2))) :=
  ⟨by decide, confidence_bounds "poisoning" (by decide)⟩

/-- C1 counterexample. For
`"I have severe chest pain and difficulty breathing"` with language `en` the
classifier does *not* return category `"cardiovascular"`: respiratory scores
7 (`breathing` +3, `difficulty breathing` +3, `chest` partial +1) while
cardiovascular only scores 5. -/
theorem classify_chest_pain_not_cardiovascular :
    ¬(analyze "I have severe chest pain and difficulty breathing" "en").category
        = "cardiovascular" := by decide

/-- C1, amended. For
`"I have severe chest pain and difficulty breathing"` with language `en` the
classifier returns category `"respiratory"` and priority `"critical"`
(the phrase `chest pain` is in the critical list). -/
theorem classify_chest_pain_respiratory_critical :
    (analyze "I have severe chest pain and difficulty breathing" "en").category
        = "respiratory" ∧
    (analyze "I have severe chest pain and difficulty breathing" "en").priority
        = "critical" :=
  ⟨by decide, by decide⟩

/-! ### Stage 2 scoring formula -/

theorem round1_mem (q : ℚ) (h0 : 0 ≤ q) (h105 : q ≤ 105) :
    0 ≤ round1 q ∧ round1 q ≤ 105 := by
  have h1 : (0 : ℤ) ≤ round (q * 10) := by
    rw [round_eq]
    exact Int.floor_nonneg.mpr (by linarith)
  have h2 : round (q * 10) ≤ 1050 := by
    rw [round_eq]
    have hf : ⌊q * 10 + 1 / 2⌋ ≤ ⌊(1050 : ℚ) + 1 / 2⌋ := Int.floor_le_floor (by linarith)
    have hv : ⌊(1050 : ℚ) + 1 / 2⌋ = 1050 := by
      rw [Int.floor_eq_iff]
      constructor <;> norm_num
    omega
  constructor
  · unfold round1
    have : (0 : ℚ) ≤ ((round (q * 10) : ℤ) : ℚ) := by exact_mod_cast h1
    linarith
  · unfold round1
    have : ((round (q * 10) : ℤ) : ℚ) ≤ 1050 := by exact_mod_cast h2
    linarith

theorem tier_add (s d : ℚ) :
    (if d ≤ 5 then s + 30 else if d ≤ 10 then s + 25 else if d ≤ 20 then s + 15
     else if d ≤ 30 then s + 10 else s + 5)
    = s + (if d ≤ 5 then (30 : ℚ) else if d ≤ 10 then 25 else if d ≤ 20 then 15
           else if d ≤ 30 then 10 else 5) := by
  split_ifs <;> ring

theorem readiness_add (s : ℚ) (c e a : Bool) :
    (if c then (if a then (if e then s + 10 else s) + 5 else (if e then s + 10 else s)) else s)
    = s + (if c then (if e then (10 : ℚ) else 0) + (if a then (5 : ℚ) else 0) else 0) := by
  cases c <;> cases e <;> cases a <;> simp <;> ring

theorem scoreHospitalValue_closed (priority : String) (hospital : Hospital) :
    scoreHospitalValue priority hospital =
      (if hospital.specialty_match then (40 : ℚ)
       else if hospital.specialties.contains "General Medicine" then 20 else 0)
      + (if hospital.distance_km ≤ 5 then (30 : ℚ)
         else if hospital.distance_km ≤ 10 then 25
         else if hospital.distance_km ≤ 20 then 15
         else if hospital.distance_km ≤ 30 then 10 else 5)
      + hospital.rating / 5 * 20
      + (if priority == "critical" || priority == "urgent" then
          (if hospital.has_emergency then (10 : ℚ) else 0)
          + (if hospital.has_ambulance then (5 : ℚ) else 0)
         else 0) := by
  unfold scoreHospitalValue
  simp only [zero_add]
  rw [tier_add, readiness_add]

/-- C7. The per-facility score is the sum of the four weighted components
(specialty, distance tier, rating, readiness); after rounding to one decimal
place the total score lies in `[0, 105]` for any rating in `[0, 5]`, and the
example facility of the spec (distance 4.9 km, specialty match, rating 4.5,
priority normal) scores exactly 88. -/
theorem total_score_formula (hospital : Hospital) (priority : String)
    (h0 : 0 ≤ hospital.rating) (h5 : hospital.rating ≤ 5) :
    scoreHospitalValue priority hospital
        = specialtyComponent hospital + distanceComponent hospital
          + ratingComponent hospital + readinessComponent priority hospital ∧
    0 ≤ round1 (scoreHospitalValue priority hospital) ∧
    round1 (scoreHospitalValue priority hospital) ≤ 105 ∧
    (hospital.distance_km = 49 / 10 → hospital.specialty_match = true →
      hospital.rating = 9 / 2 → priority = "normal" →
      round1 (scoreHospitalValue priority hospital) = 88) := by
  have heq : scoreHospitalValue priority hospital
      = specialtyComponent hospital + distanceComponent hospital
        + ratingComponent hospital + readinessComponent priority hospital := by
    rw [scoreHospitalValue_closed]
    unfold specialtyComponent distanceComponent ratingComponent readinessComponent
    simp only [Bool.or_eq_true, beq_iff_eq]
  have hspec : 0 ≤ specialtyComponent hospital ∧ specialtyComponent hospital ≤ 40 := by
    unfold specialtyComponent
    split_ifs <;> norm_num
  have hdist : 5 ≤ distanceComponent hospital ∧ distanceComponent hospital ≤ 30 := by
    unfold distanceComponent
    split_ifs <;> norm_num
  have hrat : 0 ≤ ratingComponent hospital ∧ ratingComponent hospital ≤ 20 := by
    unfold ratingComponent
    constructor <;> linarith
  have hread : 0 ≤ readinessComponent priority hospital ∧
      readinessComponent priority hospital ≤ 15 := by
    unfold readinessComponent
    split_ifs <;> norm_num
  have hbounds := round1_mem (scoreHospitalValue priority hospital)
    (by rw [heq]; linarith [hspec.1, hdist.1, hrat.1, hread.1])
    (by rw [heq]; linarith [hspec.2, hdist.2, hrat.2, hread.2])
  refine ⟨heq, hbounds.1, hbounds.2, ?_⟩
  intro hd hm hr hp
  have h88 : scoreHospitalValue priority hospital = 88 := by
    rw [heq]
    unfold specialtyComponent distanceComponent ratingComponent readinessComponent
    rw [hd, hm, hr, hp]
    norm_num
    rintro (hx | hx) <;> exact absurd hx (by decide)
  rw [h88]
  unfold round1
  rw [show (88 : ℚ) * 10 = ((880 : ℤ) : ℚ) by norm_num, round_intCast]
  norm_num

/-- Witness for C7 at the example facility of the spec. -/
theorem total_score_formula_witness :
    ((0 : ℚ) ≤ exampleFacility.rating ∧ exampleFacility.rating ≤ 5) ∧
    (scoreHospitalValue "normal" exampleFacility
        = specialtyComponent exampleFacility + distanceComponent exampleFacility
          + ratingComponent exampleFacility + readinessComponent "normal" exampleFacility ∧
    0 ≤ round1 (scoreHospitalValue "normal" exampleFacility) ∧
    round1 (scoreHospitalValue "normal" exampleFacility) ≤ 105 ∧
    (exampleFacility.distance_km = 49 / 10 → exampleFacility.specialty_match = true →
      exampleFacility.rating = 9 / 2 → "normal" = "normal" →
      round1 (scoreHospitalValue "normal" exampleFacility) = 88)) :=
  ⟨⟨by norm_num [exampleFacility, sampleFacility], by norm_num [exampleFacility, sampleFacility]⟩,
   total_score_formula exampleFacility "normal"
     (by norm_num [exampleFacility, sampleFacility])
     (by norm_num [exampleFacility, sampleFacility])⟩
